import Mathlib

/-!
# tcp_variants_scenarios.cc: resolver, run-time floor, driver and metrics reduction

A shallow embedding of `src/tcp_variants_scenarios.cc`.

* `double` values are modelled by exact rationals (`ℚ`); a division whose
  divisor is zero has no rational value and is reported as `none`.
* `uint32_t` / `uint64_t` arithmetic is modelled on `Nat` with an explicit
  reduction modulo `2^32` / `2^64` at every place where the C++ expression is
  evaluated in that type.
* The ns-3 library is external.  Its effects are recorded as a trace of
  `Event`s, and the per-flow statistics it hands back after the run are an
  input of the model.  `FlowMonitorHelper::InstallAll` hands back a monitor
  only when some node carries an IP stack; otherwise its `Ptr` is null.
-/

namespace TcpVariants

/-! ## Data model -/

/-- The ns-3 `Time` value: a signed tick count at the default resolution of one
nanosecond. -/
structure Time where
  ticks : Int
  deriving DecidableEq

/-- The `operator-` of ns-3 `Time`: the difference of the tick counts.
Simulation timestamps are non-negative 64-bit values, so the signed 64-bit
difference of two of them is exact. -/
def Time.sub (a b : Time) : Time := ⟨a.ticks - b.ticks⟩

/-- The `Time::GetSeconds` accessor: the tick count expressed in seconds. -/
def Time.GetSeconds (t : Time) : ℚ := (t.ticks : ℚ) / 1000000000

/-- The fields of `FlowMonitor::FlowStats` that `ComputeMetrics` reads.  The
struct is declared by ns-3 (`flow-monitor.h`, release 3.43 named at line 2 of
the source): `rxBytes` is a `uint64_t`, `rxPackets` and `lostPackets` are
`uint32_t`. -/
structure FlowStats where
  timeFirstTxPacket : Time
  timeLastRxPacket : Time
  delaySum : Time
  rxBytes : Nat
  rxPackets : Nat
  lostPackets : Nat
  deriving DecidableEq

/-- The `Metrics` struct of the source. -/
structure Metrics where
  throughputMbps : ℚ
  delayMs : ℚ
  lossPct : ℚ
  deriving DecidableEq

/-- Range of the record set handed to `ComputeMetrics`: the two packet counters
are `uint32_t` values, and the records are the values of a
`std::map<FlowId, FlowStats>` whose key type `FlowId` is `uint32_t`, so there
are at most `2^32` of them. -/
def WellFormed (stats : List FlowStats) : Prop :=
  stats.length ≤ 2 ^ 32 ∧
    ∀ s ∈ stats, s.rxPackets < 2 ^ 32 ∧ s.lostPackets < 2 ^ 32

/-! ## ComputeMetrics -/

/-- Division of two `double`s in the exact model: `none` when the divisor is
zero. -/
def fdiv (a b : ℚ) : Option ℚ := if b = 0 then none else some (a / b)

/-- The local variables `sumThroughput`, `sumDelay`, `packets` and `lost` of
`ComputeMetrics`. -/
structure LoopState where
  sumThroughput : ℚ
  sumDelay : ℚ
  packets : Nat
  lost : Nat

/-- One iteration of the first `for` loop of `ComputeMetrics` (lines 55-69). -/
def flowStep (st : LoopState) (s : FlowStats) : Option LoopState := do
  let sumThroughput ←
    if s.timeLastRxPacket.ticks > s.timeFirstTxPacket.ticks then
      let t := (s.timeLastRxPacket.sub s.timeFirstTxPacket).GetSeconds
      if t > 0 then do
        let bitsPerSecond ← fdiv ((s.rxBytes : ℚ) * 8) t
        let mbps ← fdiv bitsPerSecond 1000000
        pure (st.sumThroughput + mbps)
      else pure st.sumThroughput
    else pure st.sumThroughput
  let sumDelay :=
    if s.rxPackets > 0 then st.sumDelay + s.delaySum.GetSeconds else st.sumDelay
  let packets :=
    if s.rxPackets > 0 then (st.packets + s.rxPackets) % 2 ^ 64 else st.packets
  let lost := (st.lost + s.lostPackets) % 2 ^ 64
  pure ⟨sumThroughput, sumDelay, packets, lost⟩

/-- One iteration of the second `for` loop of `ComputeMetrics` (line 74): the
sum `rxPackets + lostPackets` is a `uint32_t` addition, its result is then
added to the `uint64_t` variable `total`. -/
def totalStep (total : Nat) (s : FlowStats) : Nat :=
  (total + (s.rxPackets + s.lostPackets) % 2 ^ 32) % 2 ^ 64

/-- The function `ComputeMetrics` of the source (lines 44-77), applied to the
records that `fm->GetFlowStats ()` returns after `fm->CheckForLostPackets ()`,
in the iteration order of the map.  The result is `none` exactly when a
division by zero is evaluated. -/
def ComputeMetrics (stats : List FlowStats) : Option Metrics := do
  let st ← stats.foldlM flowStep ⟨0, 0, 0, 0⟩
  let delayMs ←
    if st.packets > 0 then do
      let avg ← fdiv st.sumDelay (st.packets : ℚ)
      pure (avg * 1000)
    else pure 0
  let total := stats.foldl totalStep 0
  let lossPct ←
    if total > 0 then fdiv (100 * (st.lost : ℚ)) (total : ℚ) else pure 0
  pure ⟨st.sumThroughput, delayMs, lossPct⟩

/-! ## Reference quantities, written after the specification -/

/-- Flows that qualify for the throughput sum: the last-receive timestamp
strictly exceeds the first-send timestamp. -/
def qualifies (s : FlowStats) : Bool :=
  decide (s.timeFirstTxPacket.ticks < s.timeLastRxPacket.ticks)

/-- Per-flow rate of the specification:
`receivedBytes * 8 / elapsedSeconds / 1e6`. -/
def flowRate (s : FlowStats) : ℚ :=
  (s.rxBytes : ℚ) * 8 /
    (((s.timeLastRxPacket.ticks - s.timeFirstTxPacket.ticks : Int) : ℚ) / 1000000000) / 1000000

/-- Throughput of the specification: the per-flow rates of the qualifying
flows, summed. -/
def throughputSpec (stats : List FlowStats) : ℚ :=
  ((stats.filter qualifies).map flowRate).sum

/-- Flows with at least one received packet. -/
def received (s : FlowStats) : Bool := decide (0 < s.rxPackets)

/-- The quantity `D` of the specification: the cumulative delay, in seconds,
of the flows that received a packet. -/
def totalDelaySeconds (stats : List FlowStats) : ℚ :=
  ((stats.filter received).map (fun s => s.delaySum.GetSeconds)).sum

/-- The quantity `P` of the specification: the received-packet count of the
flows that received a packet. -/
def totalReceivedPackets (stats : List FlowStats) : Nat :=
  ((stats.filter received).map (fun s => s.rxPackets)).sum

/-- The quantity `R` of the specification: `rxPackets` summed over all flows. -/
def sumRxPackets (stats : List FlowStats) : Nat :=
  (stats.map (fun s => s.rxPackets)).sum

/-- The quantity `L` of the specification: `lostPackets` summed over all
flows. -/
def sumLostPackets (stats : List FlowStats) : Nat :=
  (stats.map (fun s => s.lostPackets)).sum

/-- Loss percentage of the specification. -/
def lossSpec (stats : List FlowStats) : ℚ :=
  if sumRxPackets stats + sumLostPackets stats = 0 then 0
  else 100 * (sumLostPackets stats : ℚ) /
    ((sumRxPackets stats + sumLostPackets stats : Nat) : ℚ)

/-- The value of `total` after the second loop. -/
def totalOf (stats : List FlowStats) : Nat := stats.foldl totalStep 0

/-- No per-flow `uint32_t` addition `rxPackets + lostPackets` wraps around. -/
def NoWrap (stats : List FlowStats) : Prop :=
  ∀ s ∈ stats, s.rxPackets + s.lostPackets < 2 ^ 32

/-! ## The driver: SetNodeTcpVariant and main -/

/-- The values printed in the `=== RESULTS ===` block (lines 225-233). -/
structure Summary where
  scenario : Nat
  variant : String
  queue : String
  cbr : String
  runTime : Nat
  metrics : Option Metrics
  deriving DecidableEq

/-- Observable actions of the program, in program order: calls into ns-3 and
text written to standard output. -/
inductive Event where
  | setDefault (key : String) (value : Nat)
  | createNodes (count : Nat)
  | installInternet (count : Nat)
  | p2pInstall (a b : Nat)
  | setRootQueueDisc (name : String)
  | tchInstall (link : Nat)
  | ipAssign (base : String) (link : Nat)
  | populateRoutingTables
  | warning (text : String)
  | setSocketType (node : Nat) (tid : String)
  | installSink (factory : String) (node port : Nat)
  | installBulkSend (node port : Nat)
  | installOnOff (node port : Nat) (rate : String) (pktSize : Nat)
  | flowMonitorInstallAll
  | simulatorStop (seconds : Nat)
  | simulatorRun
  | printSummary (s : Summary)
  | simulatorDestroy
  deriving DecidableEq

/-- How a run of the program, or of a stretch of it, ends: it goes on
(returns), `NS_FATAL_ERROR` terminates the process with a message, or a null
`Ptr` is dereferenced (an assertion failure in a debug build of ns-3,
undefined behaviour otherwise). -/
inductive Status where
  | ok
  | fatal (msg : String)
  | nullDereference
  deriving DecidableEq

/-- A stretch of the program: the events it produced and how it ended. -/
structure Proc where
  events : List Event
  status : Status
  deriving DecidableEq

/-- Sequential composition: the second stretch runs only when the first one
returned. -/
def Proc.andThen (p q : Proc) : Proc :=
  match p.status with
  | Status.ok => ⟨p.events ++ q.events, q.status⟩
  | Status.fatal msg => ⟨p.events, Status.fatal msg⟩
  | Status.nullDereference => ⟨p.events, Status.nullDereference⟩

/-- A stretch that only calls into ns-3 and cannot fail. -/
def Proc.emit (es : List Event) : Proc := ⟨es, Status.ok⟩

/-- The text of the warning printed at lines 22-23. -/
def warningText (variantName : String) : String :=
  "Warning: " ++ variantName ++ " not available in NS-3.43, using NewReno instead."

/-- The message of the fatal error at line 30. -/
def unsupportedText (variantName : String) : String :=
  "Unsupported TCP variant in ns-3.43: " ++ variantName

/-- The function `SetNodeTcpVariant` of the source (lines 17-33).  The
parameter `variantName` is passed by value, so the assignment at line 24 is
local to the call. -/
def SetNodeTcpVariant (node : Nat) (variantName : String) : Proc :=
  let legacy := variantName == "Reno" || variantName == "Tahoe"
  let out : List Event := if legacy then [Event.warning (warningText variantName)] else []
  let variantName := if legacy then "NewReno" else variantName
  if variantName == "NewReno" then
    ⟨out ++ [Event.setSocketType node "ns3::TcpNewReno"], Status.ok⟩
  else if variantName == "Vegas" then
    ⟨out ++ [Event.setSocketType node "ns3::TcpVegas"], Status.ok⟩
  else ⟨out, Status.fatal (unsupportedText variantName)⟩

/-- The command-line variables of `main` after `cmd.Parse` (lines 81-96);
`scenario` and `runTime` are `uint32_t`. -/
structure Config where
  scenario : Nat
  tcpVariantFlow1 : String
  queueType : String
  cbrRate : String
  runTime : Nat
  deriving DecidableEq

/-- The constant `cbrPktSize` (line 86). -/
def cbrPktSize : Nat := 950

/-- The constant `tcpSegSize` (line 87). -/
def tcpSegSize : Nat := 1000

/-- Line 98: `if (scenario == 2 && runTime < 100) runTime = 100;`. -/
def effectiveRunTime (scenario runTime : Nat) : Nat :=
  if scenario = 2 ∧ runTime < 100 then 100 else runTime

/-- Topology construction of scenario 1 (lines 115-135). -/
def topology1 (useRed : Bool) : List Event :=
  [Event.createNodes 5, Event.installInternet 5,
    Event.p2pInstall 0 1, Event.p2pInstall 1 2, Event.p2pInstall 2 3, Event.p2pInstall 3 4]
  ++ (if useRed then
        [Event.setRootQueueDisc "ns3::RedQueueDisc",
          Event.tchInstall 0, Event.tchInstall 1, Event.tchInstall 2, Event.tchInstall 3]
      else [])
  ++ [Event.ipAssign "10.0.1.0" 0, Event.ipAssign "10.0.2.0" 1,
      Event.ipAssign "10.0.3.0" 2, Event.ipAssign "10.0.4.0" 3,
      Event.populateRoutingTables]

/-- Topology construction of scenario 2 (lines 163-183). -/
def topology2 (useRed : Bool) : List Event :=
  [Event.createNodes 9, Event.installInternet 9]
  ++ (List.range 8).map (fun i => Event.p2pInstall i (i + 1))
  ++ (if useRed then
        Event.setRootQueueDisc "ns3::RedQueueDisc" :: (List.range 8).map Event.tchInstall
      else [])
  ++ (List.range 8).map (fun i => Event.ipAssign ("10.1." ++ toString (i + 1) ++ ".0") i)
  ++ [Event.populateRoutingTables]

/-- The body of the branch `scenario == 1` (lines 115-159). -/
def scenario1 (c : Config) (useRed : Bool) : Proc :=
  ((Proc.emit (topology1 useRed)).andThen (SetNodeTcpVariant 0 c.tcpVariantFlow1)).andThen
    (Proc.emit
      [Event.installSink "ns3::TcpSocketFactory" 4 5000, Event.installBulkSend 0 5000,
        Event.installSink "ns3::UdpSocketFactory" 4 6000,
        Event.installOnOff 1 6000 c.cbrRate cbrPktSize])

/-- The body of the branch `scenario == 2` (lines 163-215). -/
def scenario2 (c : Config) (useRed : Bool) : Proc :=
  ((((Proc.emit (topology2 useRed)).andThen (SetNodeTcpVariant 0 c.tcpVariantFlow1)).andThen
    (Proc.emit
      [Event.installSink "ns3::TcpSocketFactory" 7 7001, Event.installBulkSend 0 7001])).andThen
    (SetNodeTcpVariant 2 "NewReno")).andThen
    (Proc.emit
      [Event.installSink "ns3::TcpSocketFactory" 8 7002, Event.installBulkSend 2 7002,
        Event.installSink "ns3::UdpSocketFactory" 7 8000,
        Event.installOnOff 1 8000 c.cbrRate cbrPktSize])

/-- What `flowmon.InstallAll ()` (line 219) hands back, from ns-3
`flow-monitor-helper.cc`: the helper creates its monitor while installing a
probe on a node that carries an IP stack, and returns its `m_flowMonitor`
member.  The result is `true` when that member is set, `false` when no such
node exists and the returned `Ptr<FlowMonitor>` is null. -/
def InstallAll (setup : List Event) : Bool :=
  setup.any (fun e => match e with
    | Event.installInternet count => decide (0 < count)
    | _ => false)

/-- Lines 224-235: the call `ComputeMetrics (fm, flowmon)`, whose first
statement (line 47) dereferences `fm`, then the summary block and
`Simulator::Destroy`.  `fm` is `none` for a null `Ptr<FlowMonitor>` and
otherwise holds what `fm->GetFlowStats ()` returns. -/
def report (c : Config) (runTime : Nat) (fm : Option (List FlowStats)) : Proc :=
  match fm with
  | none => ⟨[], Status.nullDereference⟩
  | some stats =>
    Proc.emit
      [Event.printSummary
          ⟨c.scenario, c.tcpVariantFlow1, c.queueType, c.cbrRate, runTime, ComputeMetrics stats⟩,
        Event.simulatorDestroy]

/-- The function `main` of the source from line 98 on.  `c` holds the parsed
command-line variables and `stats` is what `fm->GetFlowStats ()` returns once
`Simulator::Run` has finished.  The status `ok` stands for `return 0`. -/
def main (c : Config) (stats : List FlowStats) : Proc :=
  let runTime := effectiveRunTime c.scenario c.runTime
  let useRed := c.queueType == "RED"
  let setup : Proc :=
    if c.scenario = 1 then scenario1 c useRed
    else if c.scenario = 2 then scenario2 c useRed
    else Proc.emit []
  let configured : Proc :=
    (Proc.emit [Event.setDefault "ns3::TcpSocket::SegmentSize" tcpSegSize]).andThen setup
  let fm : Option (List FlowStats) := if InstallAll configured.events then some stats else none
  (configured.andThen
    (Proc.emit [Event.flowMonitorInstallAll, Event.simulatorStop runTime, Event.simulatorRun])).andThen
    (report c runTime fm)

/-- The events after the scenario branch (lines 218-235) of a run that holds a
flow monitor. -/
def tailEvents (c : Config) (stats : List FlowStats) : List Event :=
  [Event.flowMonitorInstallAll, Event.simulatorStop (effectiveRunTime c.scenario c.runTime),
    Event.simulatorRun,
    Event.printSummary
      ⟨c.scenario, c.tcpVariantFlow1, c.queueType, c.cbrRate,
        effectiveRunTime c.scenario c.runTime, ComputeMetrics stats⟩,
    Event.simulatorDestroy]

/-! ## Observations on a trace -/

/-- Events that create a topology element: nodes, links, queue discs, address
assignments, routing tables. -/
def Event.isTopology : Event → Bool
  | Event.createNodes _ => true
  | Event.installInternet _ => true
  | Event.p2pInstall _ _ => true
  | Event.setRootQueueDisc _ => true
  | Event.tchInstall _ => true
  | Event.ipAssign _ _ => true
  | Event.populateRoutingTables => true
  | _ => false

/-- Events that provision traffic: sinks and senders. -/
def Event.isTraffic : Event → Bool
  | Event.installSink _ _ _ => true
  | Event.installBulkSend _ _ => true
  | Event.installOnOff _ _ _ _ => true
  | _ => false

/-- The event is a printed summary block. -/
def Event.isSummary : Event → Bool
  | Event.printSummary _ => true
  | _ => false

/-- The event installs a congestion-control algorithm on a node. -/
def Event.isInstall : Event → Bool
  | Event.setSocketType _ _ => true
  | _ => false

/-- The run ended in a fatal error. -/
def Status.isFatal : Status → Bool
  | Status.fatal _ => true
  | Status.ok => false
  | Status.nullDereference => false

/-- The summaries printed by a run, in order. -/
def summaries (p : Proc) : List Summary :=
  p.events.filterMap (fun e => match e with
    | Event.printSummary s => some s
    | _ => none)

/-- The durations passed to `Simulator::Stop` by a run, in order. -/
def stopTimes (p : Proc) : List Nat :=
  p.events.filterMap (fun e => match e with
    | Event.simulatorStop t => some t
    | _ => none)

/-- The algorithms installed on a node by a run, in order. -/
def installedOn (node : Nat) (p : Proc) : List String :=
  p.events.filterMap (fun e => match e with
    | Event.setSocketType n tid => if n = node then some tid else none
    | _ => none)

/-- The four names `SetNodeTcpVariant` accepts. -/
def accepted (name : String) : Prop :=
  name = "NewReno" ∨ name = "Vegas" ∨ name = "Reno" ∨ name = "Tahoe"

instance (name : String) : Decidable (accepted name) := by
  unfold accepted; infer_instance

/-- The warnings written to standard output by a run, in order. -/
def warnings (p : Proc) : List String :=
  p.events.filterMap (fun e => match e with
    | Event.warning text => some text
    | _ => none)

/-! ## Concrete configurations -/

/-- Scenario 1 with the legacy name "Reno". -/
def renoConfig : Config := ⟨1, "Reno", "DropTail", "1Mbps", 50⟩

/-- Scenario 2 with a requested run time of 20 s. -/
def shortConfig : Config := ⟨2, "Vegas", "DropTail", "1Mbps", 20⟩

/-- Scenario selector 3 with the default variant. -/
def scenario3Config : Config := ⟨3, "Vegas", "DropTail", "1Mbps", 50⟩

/-- Scenario 1 with the unsupported name "Cubic". -/
def cubicConfig : Config := ⟨1, "Cubic", "DropTail", "1Mbps", 50⟩

/-! ## Concrete record lists -/

/-- Two flows: one that delivered 10 packets over 2 s and lost one, one that
delivered nothing and lost three. -/
def sampleStats : List FlowStats :=
  [⟨⟨0⟩, ⟨2000000000⟩, ⟨500000000⟩, 1000000, 10, 1⟩, ⟨⟨5⟩, ⟨5⟩, ⟨7⟩, 1000, 0, 3⟩]

/-- One flow that received nothing and lost one packet. -/
def allLostStats : List FlowStats := [⟨⟨0⟩, ⟨0⟩, ⟨0⟩, 0, 0, 1⟩]

/-- One flow with `rxPackets = 2^32 - 1` and `lostPackets = 1`. -/
def wrapToZeroStats : List FlowStats := [⟨⟨0⟩, ⟨0⟩, ⟨0⟩, 0, 4294967295, 1⟩]

/-- One flow with `rxPackets = 2^32 - 1` and `lostPackets = 2`. -/
def wrapToOneStats : List FlowStats := [⟨⟨0⟩, ⟨0⟩, ⟨0⟩, 0, 4294967295, 2⟩]

instance (stats : List FlowStats) : Decidable (WellFormed stats) := by
  unfold WellFormed; infer_instance

instance (stats : List FlowStats) : Decidable (NoWrap stats) := by
  unfold NoWrap; infer_instance

/-! # Theorems -/

/-! ## Lemmas on the two loops -/

theorem fdiv_of_ne_zero (a b : ℚ) (hb : b ≠ 0) : fdiv a b = some (a / b) := by
  simp [fdiv, hb]

theorem elapsed_pos (s : FlowStats) (h : s.timeFirstTxPacket.ticks < s.timeLastRxPacket.ticks) :
    0 < (s.timeLastRxPacket.sub s.timeFirstTxPacket).GetSeconds := by
  unfold Time.GetSeconds Time.sub
  have h1 : (0 : ℚ) < ((s.timeLastRxPacket.ticks - s.timeFirstTxPacket.ticks : Int) : ℚ) := by
    exact_mod_cast sub_pos.mpr h
  positivity

/-- One pass of the first loop, written without the option monad. -/
theorem flowStep_eq (st : LoopState) (s : FlowStats) :
    flowStep st s = some
      ⟨st.sumThroughput + (if qualifies s then flowRate s else 0),
        st.sumDelay + (if received s then s.delaySum.GetSeconds else 0),
        if received s then (st.packets + s.rxPackets) % 2 ^ 64 else st.packets,
        (st.lost + s.lostPackets) % 2 ^ 64⟩ := by
  have hm : ∀ a : ℚ, fdiv a 1000000 = some (a / 1000000) :=
    fun a => fdiv_of_ne_zero a 1000000 (by norm_num)
  have hrx : (s.rxPackets > 0) = (0 < s.rxPackets) := rfl
  unfold flowStep
  by_cases hq : s.timeFirstTxPacket.ticks < s.timeLastRxPacket.ticks
  · have ht := elapsed_pos s hq
    have hne : (s.timeLastRxPacket.sub s.timeFirstTxPacket).GetSeconds ≠ 0 := ne_of_gt ht
    have hrate : (s.rxBytes : ℚ) * 8 / (s.timeLastRxPacket.sub s.timeFirstTxPacket).GetSeconds
        / 1000000 = flowRate s := by
      simp [flowRate, Time.GetSeconds, Time.sub]
    by_cases hr : 0 < s.rxPackets
    · simp only [gt_iff_lt, hq, ht, if_true, fdiv_of_ne_zero _ _ hne, hm, hrate, hr, qualifies,
        received, decide_True, Option.bind_eq_bind, Option.some_bind, Option.pure_def]
    · simp only [gt_iff_lt, hq, ht, if_true, fdiv_of_ne_zero _ _ hne, hm, hrate, hr, qualifies,
        received, decide_True, decide_False, Bool.false_eq_true, if_false, add_zero,
        Option.bind_eq_bind, Option.some_bind, Option.pure_def]
  · by_cases hr : 0 < s.rxPackets
    · simp only [gt_iff_lt, hq, if_false, hr, qualifies,
        received, decide_True, decide_False, Bool.false_eq_true, if_true, add_zero,
        Option.bind_eq_bind, Option.some_bind, Option.pure_def]
    · simp only [gt_iff_lt, hq, if_false, hr, qualifies,
        received, decide_False, Bool.false_eq_true, add_zero,
        Option.bind_eq_bind, Option.some_bind, Option.pure_def]

theorem throughputSpec_cons (s : FlowStats) (l : List FlowStats) :
    throughputSpec (s :: l) = (if qualifies s then flowRate s else 0) + throughputSpec l := by
  unfold throughputSpec
  by_cases h : qualifies s <;> simp [List.filter_cons, h]

theorem totalDelaySeconds_cons (s : FlowStats) (l : List FlowStats) :
    totalDelaySeconds (s :: l)
      = (if received s then s.delaySum.GetSeconds else 0) + totalDelaySeconds l := by
  unfold totalDelaySeconds
  by_cases h : received s <;> simp [List.filter_cons, h]

theorem totalReceivedPackets_cons (s : FlowStats) (l : List FlowStats) :
    totalReceivedPackets (s :: l) = s.rxPackets + totalReceivedPackets l := by
  unfold totalReceivedPackets
  by_cases h : 0 < s.rxPackets
  · simp [List.filter_cons, received, h]
  · have h0 : s.rxPackets = 0 := by omega
    simp [List.filter_cons, received, h0]

theorem totalReceivedPackets_eq_sumRxPackets (l : List FlowStats) :
    totalReceivedPackets l = sumRxPackets l := by
  induction l with
  | nil => rfl
  | cons s l ih =>
    rw [totalReceivedPackets_cons, ih]
    simp [sumRxPackets]

/-- The first loop as a whole: the rational accumulators hold the sums of the
specification, the integer accumulators hold the sums reduced modulo `2^64`. -/
theorem foldlM_flowStep (stats : List FlowStats) :
    ∀ st : LoopState, st.packets < 2 ^ 64 → st.lost < 2 ^ 64 →
      stats.foldlM flowStep st = some
        ⟨st.sumThroughput + throughputSpec stats,
          st.sumDelay + totalDelaySeconds stats,
          (st.packets + totalReceivedPackets stats) % 2 ^ 64,
          (st.lost + sumLostPackets stats) % 2 ^ 64⟩ := by
  induction stats with
  | nil =>
    intro st hp hl
    have e1 : throughputSpec [] = 0 := rfl
    have e2 : totalDelaySeconds [] = 0 := rfl
    have e3 : totalReceivedPackets [] = 0 := rfl
    have e4 : sumLostPackets [] = 0 := rfl
    rw [e1, e2, e3, e4, Nat.add_zero, Nat.add_zero, Nat.mod_eq_of_lt hp, Nat.mod_eq_of_lt hl,
      add_zero, add_zero]
    rfl
  | cons s l ih =>
    intro st hp hl
    rw [List.foldlM_cons, flowStep_eq]
    simp only [Option.bind_eq_bind, Option.some_bind]
    have hp2 : (if received s then (st.packets + s.rxPackets) % 2 ^ 64 else st.packets)
        = (st.packets + s.rxPackets) % 2 ^ 64 := by
      by_cases h : 0 < s.rxPackets
      · simp [received, h]
      · have h0 : s.rxPackets = 0 := by omega
        simp only [received, h0, lt_self_iff_false, decide_False, Bool.false_eq_true, if_false,
          Nat.add_zero, Nat.mod_eq_of_lt hp]
    rw [hp2, ih _ (Nat.mod_lt _ (by norm_num)) (Nat.mod_lt _ (by norm_num))]
    rw [throughputSpec_cons, totalDelaySeconds_cons, totalReceivedPackets_cons]
    have hL : sumLostPackets (s :: l) = s.lostPackets + sumLostPackets l := by
      simp [sumLostPackets]
    rw [hL]
    have a1 : ((st.packets + s.rxPackets) % 2 ^ 64 + totalReceivedPackets l) % 2 ^ 64
        = (st.packets + (s.rxPackets + totalReceivedPackets l)) % 2 ^ 64 := by omega
    have a2 : ((st.lost + s.lostPackets) % 2 ^ 64 + sumLostPackets l) % 2 ^ 64
        = (st.lost + (s.lostPackets + sumLostPackets l)) % 2 ^ 64 := by omega
    simp only [a1, a2, add_assoc]

/-- The second loop as a whole. -/
theorem foldl_totalStep (stats : List FlowStats) :
    ∀ total : Nat, total < 2 ^ 64 →
      stats.foldl totalStep total
        = (total + (stats.map (fun s => (s.rxPackets + s.lostPackets) % 2 ^ 32)).sum) % 2 ^ 64 := by
  induction stats with
  | nil =>
    intro total h
    simp only [List.foldl_nil, List.map_nil, List.sum_nil, Nat.add_zero, Nat.mod_eq_of_lt h]
  | cons s l ih =>
    intro total _
    rw [List.foldl_cons, ih _ (by unfold totalStep; exact Nat.mod_lt _ (by norm_num))]
    simp only [totalStep, List.map_cons, List.sum_cons]
    omega

theorem totalOf_eq (stats : List FlowStats) :
    totalOf stats
      = (stats.map (fun s => (s.rxPackets + s.lostPackets) % 2 ^ 32)).sum % 2 ^ 64 := by
  unfold totalOf
  rw [foldl_totalStep stats 0 (by norm_num)]
  simp

/-- What `ComputeMetrics` returns on any record list: it always returns, the
guards keep every divisor away from zero. -/
theorem ComputeMetrics_eq (stats : List FlowStats) :
    ComputeMetrics stats = some
      ⟨throughputSpec stats,
        if 0 < totalReceivedPackets stats % 2 ^ 64 then
          totalDelaySeconds stats / ((totalReceivedPackets stats % 2 ^ 64 : Nat) : ℚ) * 1000
        else 0,
        if 0 < totalOf stats then
          100 * ((sumLostPackets stats % 2 ^ 64 : Nat) : ℚ) / ((totalOf stats : Nat) : ℚ)
        else 0⟩ := by
  unfold ComputeMetrics
  rw [foldlM_flowStep stats ⟨0, 0, 0, 0⟩ (by norm_num) (by norm_num)]
  have ht : List.foldl totalStep 0 stats = totalOf stats := rfl
  simp only [Option.bind_eq_bind, Option.some_bind, zero_add, ht, gt_iff_lt]
  by_cases hp : 0 < totalReceivedPackets stats % 2 ^ 64
  · have hpq : ((totalReceivedPackets stats % 2 ^ 64 : Nat) : ℚ) ≠ 0 := by
      exact_mod_cast (Nat.pos_iff_ne_zero.mp hp)
    by_cases hl : 0 < totalOf stats
    · have hlq : ((totalOf stats : Nat) : ℚ) ≠ 0 := by
        exact_mod_cast (Nat.pos_iff_ne_zero.mp hl)
      simp only [hp, hl, if_true, fdiv_of_ne_zero _ _ hpq, fdiv_of_ne_zero _ _ hlq,
        Option.some_bind, Option.pure_def]
    · simp only [hp, hl, if_true, if_false, fdiv_of_ne_zero _ _ hpq,
        Option.some_bind, Option.pure_def]
  · by_cases hl : 0 < totalOf stats
    · have hlq : ((totalOf stats : Nat) : ℚ) ≠ 0 := by
        exact_mod_cast (Nat.pos_iff_ne_zero.mp hl)
      simp only [hp, hl, if_true, if_false, fdiv_of_ne_zero _ _ hlq,
        Option.some_bind, Option.pure_def]
    · simp only [hp, hl, if_false, Option.some_bind, Option.pure_def]

/-! ## Integer accumulators under the ranges of the input types -/

theorem sum_map_le_of_lt (f : FlowStats → Nat) (stats : List FlowStats)
    (h : ∀ s ∈ stats, f s < 2 ^ 32) :
    (stats.map f).sum ≤ stats.length * (2 ^ 32 - 1) := by
  induction stats with
  | nil => simp
  | cons s l ih =>
    have hs : f s < 2 ^ 32 := h s (List.mem_cons_self s l)
    have hl := ih (fun x hx => h x (List.mem_cons_of_mem s hx))
    simp only [List.map_cons, List.sum_cons, List.length_cons]
    have : (l.length + 1) * (2 ^ 32 - 1) = l.length * (2 ^ 32 - 1) + (2 ^ 32 - 1) := by ring
    omega

theorem sum_map_lt_of_wellFormed (f : FlowStats → Nat) (stats : List FlowStats)
    (hlen : stats.length ≤ 2 ^ 32) (h : ∀ s ∈ stats, f s < 2 ^ 32) :
    (stats.map f).sum < 2 ^ 64 := by
  have h1 := sum_map_le_of_lt f stats h
  have h2 : stats.length * (2 ^ 32 - 1) ≤ 2 ^ 32 * (2 ^ 32 - 1) :=
    Nat.mul_le_mul_right _ hlen
  have h3 : (2 : Nat) ^ 32 * (2 ^ 32 - 1) < 2 ^ 64 := by norm_num
  omega

theorem sumRxPackets_lt (stats : List FlowStats) (h : WellFormed stats) :
    sumRxPackets stats < 2 ^ 64 :=
  sum_map_lt_of_wellFormed _ stats h.1 (fun s hs => (h.2 s hs).1)

theorem sumLostPackets_lt (stats : List FlowStats) (h : WellFormed stats) :
    sumLostPackets stats < 2 ^ 64 :=
  sum_map_lt_of_wellFormed _ stats h.1 (fun s hs => (h.2 s hs).2)

theorem totalPackets_lt (stats : List FlowStats) (h : WellFormed stats) :
    (stats.map (fun s => (s.rxPackets + s.lostPackets) % 2 ^ 32)).sum < 2 ^ 64 :=
  sum_map_lt_of_wellFormed _ stats h.1 (fun _ _ => Nat.mod_lt _ (by norm_num))

theorem sum_add_eq (stats : List FlowStats) :
    (stats.map (fun s => s.rxPackets + s.lostPackets)).sum
      = sumRxPackets stats + sumLostPackets stats := by
  induction stats with
  | nil => rfl
  | cons s l ih =>
    simp only [sumRxPackets, sumLostPackets, List.map_cons, List.sum_cons] at ih ⊢
    omega

/-- When no per-flow addition wraps, `total` is `R + L`. -/
theorem totalOf_of_noWrap (stats : List FlowStats) (h : WellFormed stats) (hw : NoWrap stats) :
    totalOf stats = sumRxPackets stats + sumLostPackets stats := by
  have hlt := totalPackets_lt stats h
  rw [totalOf_eq, Nat.mod_eq_of_lt hlt, ← sum_add_eq]
  congr 1
  apply List.map_congr_left
  intro s hs
  exact Nat.mod_eq_of_lt (hw s hs)

/-- The loss percentage on record sets where no per-flow addition wraps. -/
theorem lossPct_of_noWrap (stats : List FlowStats) (h : WellFormed stats) (hw : NoWrap stats) :
    ∃ m, ComputeMetrics stats = some m ∧ m.lossPct = lossSpec stats := by
  refine ⟨_, ComputeMetrics_eq stats, ?_⟩
  simp only
  rw [totalOf_of_noWrap stats h hw, Nat.mod_eq_of_lt (sumLostPackets_lt stats h)]
  unfold lossSpec
  by_cases h0 : sumRxPackets stats + sumLostPackets stats = 0
  · simp [h0]
  · have hpos : 0 < sumRxPackets stats + sumLostPackets stats := Nat.pos_of_ne_zero h0
    simp [h0, hpos]

/-! ## Claims on ComputeMetrics -/

/-- C2: on every list of flow records `ComputeMetrics` returns, and its
`throughputMbps` is the sum, over exactly the flows whose `timeLastRxPacket`
is strictly greater than `timeFirstTxPacket`, of
`rxBytes * 8 / elapsedSeconds / 1e6`; the other flows contribute nothing and
every qualifying list entry is counted once. -/
theorem ComputeMetrics_throughput (stats : List FlowStats) :
    ∃ m, ComputeMetrics stats = some m ∧
      m.throughputMbps
        = ((stats.filter
              (fun s => decide (s.timeFirstTxPacket.ticks < s.timeLastRxPacket.ticks))).map
            (fun s => (s.rxBytes : ℚ) * 8 /
              (((s.timeLastRxPacket.ticks - s.timeFirstTxPacket.ticks : Int) : ℚ) / 1000000000)
              / 1000000)).sum :=
  ⟨_, ComputeMetrics_eq stats, rfl⟩

/-- C3: on every well-formed list of flow records `ComputeMetrics` returns, and
its `delayMs` is `1000 * D / P`, with `D` the sum of `delaySum` in seconds and
`P` the sum of `rxPackets`, both over the flows with `rxPackets > 0`; when
`P = 0` it is exactly `0`. -/
theorem ComputeMetrics_delay (stats : List FlowStats) (h : WellFormed stats) :
    ∃ m, ComputeMetrics stats = some m ∧
      m.delayMs =
        if totalReceivedPackets stats = 0 then 0
        else 1000 * totalDelaySeconds stats / (totalReceivedPackets stats : ℚ) := by
  refine ⟨_, ComputeMetrics_eq stats, ?_⟩
  have hlt : totalReceivedPackets stats < 2 ^ 64 := by
    rw [totalReceivedPackets_eq_sumRxPackets]; exact sumRxPackets_lt stats h
  simp only
  rw [Nat.mod_eq_of_lt hlt]
  by_cases h0 : totalReceivedPackets stats = 0
  · simp [h0]
  · have hpos : 0 < totalReceivedPackets stats := Nat.pos_of_ne_zero h0
    simp only [h0, hpos, if_true, if_false]
    ring

/-- C3, at a concrete input: the two flows of `sampleStats` give an average
delay of 50 ms. -/
theorem ComputeMetrics_delay_witness :
    WellFormed sampleStats ∧ ∃ m, ComputeMetrics sampleStats = some m ∧ m.delayMs = 50 := by
  have hwf : WellFormed sampleStats := by decide
  obtain ⟨m, hm, hd⟩ := ComputeMetrics_delay sampleStats hwf
  refine ⟨hwf, m, hm, ?_⟩
  rw [hd]
  norm_num [sampleStats, totalReceivedPackets, totalDelaySeconds, received, Time.GetSeconds]

/-- C4, evaluated at the failing input: for the single flow with
`rxPackets = 4294967295` and `lostPackets = 1` the 32-bit sum
`rxPackets + lostPackets` wraps to `0`, so `total = 0` and `ComputeMetrics`
returns `lossPct = 0`, while `100 * L / (R + L)` is `100 / 4294967296`. -/
theorem ComputeMetrics_loss_wraps_to_zero :
    WellFormed wrapToZeroStats ∧
      ComputeMetrics wrapToZeroStats = some ⟨0, 0, 0⟩ ∧
      sumRxPackets wrapToZeroStats + sumLostPackets wrapToZeroStats = 4294967296 ∧
      lossSpec wrapToZeroStats = 100 / 4294967296 := by
  refine ⟨by decide, ?_, by decide, ?_⟩
  · rw [ComputeMetrics_eq]
    norm_num [wrapToZeroStats, throughputSpec, qualifies, totalReceivedPackets, received,
      totalDelaySeconds, Time.GetSeconds, totalOf, totalStep, sumLostPackets]
  · norm_num [lossSpec, wrapToZeroStats, sumRxPackets, sumLostPackets]

/-- C9, refuted as stated: the single flow of `allLostStats` has
`rxPackets = 0`, yet `ComputeMetrics` returns `lossPct = 100`, not `0`. -/
theorem ComputeMetrics_all_lost_counterexample :
    (∀ s ∈ allLostStats, s.rxPackets = 0) ∧
      ComputeMetrics allLostStats = some ⟨0, 0, 100⟩ ∧
      ¬ ∃ m, ComputeMetrics allLostStats = some m ∧ m.delayMs = 0 ∧ m.lossPct = 0 := by
  have hc : ComputeMetrics allLostStats = some ⟨0, 0, 100⟩ := by
    rw [ComputeMetrics_eq]
    norm_num [allLostStats, throughputSpec, qualifies, totalReceivedPackets, received,
      totalDelaySeconds, Time.GetSeconds, totalOf, totalStep, sumLostPackets]
  refine ⟨by decide, hc, ?_⟩
  rintro ⟨m, hm, -, hl⟩
  rw [hc] at hm
  injection hm with hm
  subst hm
  norm_num at hl

/-- C9, amended: when every flow of a well-formed record list has
`rxPackets = 0`, `ComputeMetrics` returns (no division by zero is evaluated),
`delayMs` is `0`, and `lossPct` is `0` when no packet was lost at all and
`100` as soon as one flow lost a packet. -/
theorem ComputeMetrics_no_received (stats : List FlowStats) (h : WellFormed stats)
    (h0 : ∀ s ∈ stats, s.rxPackets = 0) :
    ∃ m, ComputeMetrics stats = some m ∧ m.delayMs = 0 ∧
      m.lossPct = if sumLostPackets stats = 0 then 0 else 100 := by
  refine ⟨_, ComputeMetrics_eq stats, ?_, ?_⟩
  · have hP : totalReceivedPackets stats = 0 := by
      rw [totalReceivedPackets_eq_sumRxPackets]
      unfold sumRxPackets
      apply List.sum_eq_zero
      intro x hx
      obtain ⟨s, hs, rfl⟩ := List.mem_map.mp hx
      exact h0 s hs
    simp [hP]
  · have hR : sumRxPackets stats = 0 := by
      unfold sumRxPackets
      apply List.sum_eq_zero
      intro x hx
      obtain ⟨s, hs, rfl⟩ := List.mem_map.mp hx
      exact h0 s hs
    have hw : NoWrap stats := by
      intro s hs
      rw [h0 s hs, Nat.zero_add]
      exact (h.2 s hs).2
    simp only
    rw [totalOf_of_noWrap stats h hw, hR, Nat.zero_add,
      Nat.mod_eq_of_lt (sumLostPackets_lt stats h)]
    by_cases hL : sumLostPackets stats = 0
    · simp [hL]
    · have hpos : 0 < sumLostPackets stats := Nat.pos_of_ne_zero hL
      have hq : ((sumLostPackets stats : Nat) : ℚ) ≠ 0 := by exact_mod_cast hL
      simp only [hL, hpos, if_true, if_false]
      field_simp

/-- C9 amended, at a concrete input: the flow of `allLostStats` received
nothing and lost one packet; the delay is `0` and the loss is `100`. -/
theorem ComputeMetrics_no_received_witness :
    WellFormed allLostStats ∧ (∀ s ∈ allLostStats, s.rxPackets = 0) ∧
      ∃ m, ComputeMetrics allLostStats = some m ∧ m.delayMs = 0 ∧ m.lossPct = 100 := by
  have hwf : WellFormed allLostStats := by decide
  have h0 : ∀ s ∈ allLostStats, s.rxPackets = 0 := by decide
  obtain ⟨m, hm, hd, hl⟩ := ComputeMetrics_no_received allLostStats hwf h0
  refine ⟨hwf, h0, m, hm, hd, ?_⟩
  rw [hl]
  norm_num [allLostStats, sumLostPackets]

/-- C10, evaluated at the failing input: for the single flow with
`rxPackets = 4294967295` and `lostPackets = 2` the 32-bit sum
`rxPackets + lostPackets` wraps to `1`, so `lost = 2` exceeds `total = 1` and
`ComputeMetrics` returns `lossPct = 200`. -/
theorem ComputeMetrics_loss_exceeds_100 :
    WellFormed wrapToOneStats ∧
      totalOf wrapToOneStats = 1 ∧
      ComputeMetrics wrapToOneStats = some ⟨0, 0, 200⟩ ∧
      ¬ ∃ m, ComputeMetrics wrapToOneStats = some m ∧ m.lossPct ≤ 100 := by
  have hc : ComputeMetrics wrapToOneStats = some ⟨0, 0, 200⟩ := by
    rw [ComputeMetrics_eq]
    norm_num [wrapToOneStats, throughputSpec, qualifies, totalReceivedPackets, received,
      totalDelaySeconds, Time.GetSeconds, totalOf, totalStep, sumLostPackets]
  refine ⟨by decide, by decide, hc, ?_⟩
  rintro ⟨m, hm, hl⟩
  rw [hc] at hm
  injection hm with hm
  subst hm
  norm_num at hl

/-- The ranges of C10 that hold on every well-formed record list with
non-negative `delaySum`: `lossPct`, `delayMs` and `throughputMbps` are
non-negative, and `lossPct ≤ 100` when no per-flow addition wraps. -/
theorem ComputeMetrics_ranges (stats : List FlowStats) (h : WellFormed stats)
    (hd : ∀ s ∈ stats, 0 ≤ s.delaySum.ticks) :
    ∃ m, ComputeMetrics stats = some m ∧ 0 ≤ m.throughputMbps ∧ 0 ≤ m.delayMs ∧
      0 ≤ m.lossPct ∧ (NoWrap stats → m.lossPct ≤ 100) := by
  refine ⟨_, ComputeMetrics_eq stats, ?_, ?_, ?_, ?_⟩
  · unfold throughputSpec
    apply List.sum_nonneg
    intro x hx
    obtain ⟨s, hs, rfl⟩ := List.mem_map.mp hx
    have hq : s.timeFirstTxPacket.ticks < s.timeLastRxPacket.ticks := by
      simpa [qualifies] using (List.mem_filter.mp hs).2
    have h1 : (0 : ℚ) < ((s.timeLastRxPacket.ticks - s.timeFirstTxPacket.ticks : Int) : ℚ) := by
      exact_mod_cast sub_pos.mpr hq
    unfold flowRate
    positivity
  · have hD : 0 ≤ totalDelaySeconds stats := by
      unfold totalDelaySeconds
      apply List.sum_nonneg
      intro x hx
      obtain ⟨s, hs, rfl⟩ := List.mem_map.mp hx
      have h1 : (0 : ℚ) ≤ (s.delaySum.ticks : ℚ) := by
        exact_mod_cast hd s (List.mem_filter.mp hs).1
      unfold Time.GetSeconds
      positivity
    simp only
    split
    · positivity
    · exact le_refl _
  · simp only
    split
    · positivity
    · exact le_refl _
  · intro hw
    simp only
    rw [totalOf_of_noWrap stats h hw, Nat.mod_eq_of_lt (sumLostPackets_lt stats h)]
    split
    · rename_i hpos
      have hq : (0 : ℚ) < ((sumRxPackets stats + sumLostPackets stats : Nat) : ℚ) := by
        exact_mod_cast hpos
      rw [div_le_iff₀ hq]
      have : ((sumLostPackets stats : Nat) : ℚ)
          ≤ ((sumRxPackets stats + sumLostPackets stats : Nat) : ℚ) := by
        exact_mod_cast Nat.le_add_left _ _
      linarith
    · norm_num

/-! ## Claims on the resolver -/

/-- C1: `SetNodeTcpVariant` is a three-way map of the requested name.  For
"NewReno" and "Vegas" it installs exactly that algorithm and prints nothing;
for "Reno" and "Tahoe" it prints one warning that names the requested name and
NewReno, then installs NewReno; for every other string it ends in the fatal
unsupported-variant error, installs nothing and prints nothing. -/
theorem SetNodeTcpVariant_three_way (node : Nat) (name : String) :
    SetNodeTcpVariant node name =
      if name = "NewReno" then ⟨[Event.setSocketType node "ns3::TcpNewReno"], Status.ok⟩
      else if name = "Vegas" then ⟨[Event.setSocketType node "ns3::TcpVegas"], Status.ok⟩
      else if name = "Reno" ∨ name = "Tahoe" then
        ⟨[Event.warning
            ("Warning: " ++ name ++ " not available in NS-3.43, using NewReno instead."),
          Event.setSocketType node "ns3::TcpNewReno"], Status.ok⟩
      else ⟨[], Status.fatal ("Unsupported TCP variant in ns-3.43: " ++ name)⟩ := by
  by_cases h1 : name = "NewReno"
  · subst h1; simp [SetNodeTcpVariant]
  by_cases h2 : name = "Vegas"
  · subst h2; simp [SetNodeTcpVariant]
  by_cases h3 : name = "Reno"
  · subst h3; simp [SetNodeTcpVariant, warningText]
  by_cases h4 : name = "Tahoe"
  · subst h4; simp [SetNodeTcpVariant, warningText]
  simp [SetNodeTcpVariant, h1, h2, h3, h4, unsupportedText]

/-! ## Lemmas on the driver -/

theorem SetNodeTcpVariant_not_accepted (node : Nat) (name : String) (h : ¬ accepted name) :
    SetNodeTcpVariant node name = ⟨[], Status.fatal (unsupportedText name)⟩ := by
  unfold accepted at h
  simp only [not_or] at h
  obtain ⟨h1, h2, h3, h4⟩ := h
  simp [SetNodeTcpVariant, h1, h2, h3, h4]

theorem SetNodeTcpVariant_accepted (node : Nat) (name : String) (h : accepted name) :
    SetNodeTcpVariant node name =
      ⟨(if name = "Reno" ∨ name = "Tahoe" then [Event.warning (warningText name)] else [])
        ++ [Event.setSocketType node (if name = "Vegas" then "ns3::TcpVegas" else "ns3::TcpNewReno")],
        Status.ok⟩ := by
  rcases h with h | h | h | h <;> subst h <;> simp [SetNodeTcpVariant]

theorem installAll_topology1 (useRed : Bool) (l : List Event) :
    InstallAll (Event.setDefault "ns3::TcpSocket::SegmentSize" tcpSegSize ::
      (topology1 useRed ++ l)) = true := by
  simp [InstallAll, topology1]

theorem installAll_topology2 (useRed : Bool) (l : List Event) :
    InstallAll (Event.setDefault "ns3::TcpSocket::SegmentSize" tcpSegSize ::
      (topology2 useRed ++ l)) = true := by
  simp [InstallAll, topology2]

theorem main_other (c : Config) (stats : List FlowStats) (h1 : c.scenario ≠ 1)
    (h2 : c.scenario ≠ 2) :
    main c stats =
      ⟨[Event.setDefault "ns3::TcpSocket::SegmentSize" tcpSegSize, Event.flowMonitorInstallAll,
          Event.simulatorStop c.runTime, Event.simulatorRun],
        Status.nullDereference⟩ := by
  have he : effectiveRunTime c.scenario c.runTime = c.runTime := by
    simp [effectiveRunTime, h2]
  simp [main, h1, h2, Proc.andThen, Proc.emit, report, InstallAll, he]

theorem main_scenario1_accepted (c : Config) (stats : List FlowStats) (h1 : c.scenario = 1)
    (hv : accepted c.tcpVariantFlow1) :
    main c stats =
      ⟨Event.setDefault "ns3::TcpSocket::SegmentSize" tcpSegSize ::
          (topology1 (c.queueType == "RED") ++
            ((SetNodeTcpVariant 0 c.tcpVariantFlow1).events ++
              ([Event.installSink "ns3::TcpSocketFactory" 4 5000, Event.installBulkSend 0 5000,
                  Event.installSink "ns3::UdpSocketFactory" 4 6000,
                  Event.installOnOff 1 6000 c.cbrRate cbrPktSize] ++ tailEvents c stats))),
        Status.ok⟩ := by
  simp [main, h1, scenario1, Proc.andThen, Proc.emit, tailEvents,
    SetNodeTcpVariant_accepted _ _ hv, installAll_topology1, report]

theorem main_scenario1_not_accepted (c : Config) (stats : List FlowStats) (h1 : c.scenario = 1)
    (hv : ¬ accepted c.tcpVariantFlow1) :
    main c stats =
      ⟨Event.setDefault "ns3::TcpSocket::SegmentSize" tcpSegSize ::
          topology1 (c.queueType == "RED"),
        Status.fatal (unsupportedText c.tcpVariantFlow1)⟩ := by
  simp [main, h1, scenario1, Proc.andThen, Proc.emit,
    SetNodeTcpVariant_not_accepted _ _ hv]

theorem main_scenario2_accepted (c : Config) (stats : List FlowStats) (h2 : c.scenario = 2)
    (hv : accepted c.tcpVariantFlow1) :
    main c stats =
      ⟨Event.setDefault "ns3::TcpSocket::SegmentSize" tcpSegSize ::
          (topology2 (c.queueType == "RED") ++
            ((SetNodeTcpVariant 0 c.tcpVariantFlow1).events ++
              ([Event.installSink "ns3::TcpSocketFactory" 7 7001, Event.installBulkSend 0 7001,
                  Event.setSocketType 2 "ns3::TcpNewReno",
                  Event.installSink "ns3::TcpSocketFactory" 8 7002, Event.installBulkSend 2 7002,
                  Event.installSink "ns3::UdpSocketFactory" 7 8000,
                  Event.installOnOff 1 8000 c.cbrRate cbrPktSize] ++ tailEvents c stats))),
        Status.ok⟩ := by
  have hn : SetNodeTcpVariant 2 "NewReno"
      = ⟨[Event.setSocketType 2 "ns3::TcpNewReno"], Status.ok⟩ := by decide
  simp [main, h2, scenario2, Proc.andThen, Proc.emit, tailEvents,
    SetNodeTcpVariant_accepted _ _ hv, hn, installAll_topology2, report]

theorem main_scenario2_not_accepted (c : Config) (stats : List FlowStats) (h2 : c.scenario = 2)
    (hv : ¬ accepted c.tcpVariantFlow1) :
    main c stats =
      ⟨Event.setDefault "ns3::TcpSocket::SegmentSize" tcpSegSize ::
          topology2 (c.queueType == "RED"),
        Status.fatal (unsupportedText c.tcpVariantFlow1)⟩ := by
  simp [main, h2, scenario2, Proc.andThen, Proc.emit,
    SetNodeTcpVariant_not_accepted _ _ hv]

theorem topology1_all (useRed : Bool) : ∀ e ∈ topology1 useRed, e.isTopology = true := by
  cases useRed <;> decide

theorem topology2_all (useRed : Bool) : ∀ e ∈ topology2 useRed, e.isTopology = true := by
  cases useRed <;> decide

theorem routing_mem_topology1 (useRed : Bool) :
    Event.populateRoutingTables ∈ topology1 useRed := by
  cases useRed <;> decide

theorem routing_mem_topology2 (useRed : Bool) :
    Event.populateRoutingTables ∈ topology2 useRed := by
  cases useRed <;> decide

theorem filterMap_topology {α : Type} (f : Event → Option α)
    (hf : ∀ e, e.isTopology = true → f e = none) (l : List Event)
    (hl : ∀ e ∈ l, e.isTopology = true) : l.filterMap f = [] := by
  induction l with
  | nil => rfl
  | cons e l ih =>
    rw [List.filterMap_cons, hf e (hl e (List.mem_cons_self e l))]
    exact ih (fun x hx => hl x (List.mem_cons_of_mem e hx))

theorem stopTimes_topology (l : List Event) (hl : ∀ e ∈ l, e.isTopology = true) :
    l.filterMap (fun e => match e with
      | Event.simulatorStop t => some t
      | _ => none) = [] := by
  apply filterMap_topology _ _ l hl
  intro e he
  cases e <;> simp_all [Event.isTopology]

theorem summaries_topology (l : List Event) (hl : ∀ e ∈ l, e.isTopology = true) :
    l.filterMap (fun e => match e with
      | Event.printSummary s => some s
      | _ => none) = [] := by
  apply filterMap_topology _ _ l hl
  intro e he
  cases e <;> simp_all [Event.isTopology]

theorem warnings_topology (l : List Event) (hl : ∀ e ∈ l, e.isTopology = true) :
    l.filterMap (fun e => match e with
      | Event.warning text => some text
      | _ => none) = [] := by
  apply filterMap_topology _ _ l hl
  intro e he
  cases e <;> simp_all [Event.isTopology]

theorem installedOn_topology (node : Nat) (l : List Event)
    (hl : ∀ e ∈ l, e.isTopology = true) :
    l.filterMap (fun e => match e with
      | Event.setSocketType n tid => if n = node then some tid else none
      | _ => none) = [] := by
  apply filterMap_topology _ _ l hl
  intro e he
  cases e <;> simp_all [Event.isTopology]

/-- The stop times and summaries of a run, for the two scenarios. -/
theorem main_stop_and_summary (c : Config) (stats : List FlowStats)
    (hs : c.scenario = 1 ∨ c.scenario = 2) :
    stopTimes (main c stats)
        = (if accepted c.tcpVariantFlow1 then [effectiveRunTime c.scenario c.runTime] else []) ∧
      summaries (main c stats)
        = (if accepted c.tcpVariantFlow1 then
            [⟨c.scenario, c.tcpVariantFlow1, c.queueType, c.cbrRate,
              effectiveRunTime c.scenario c.runTime, ComputeMetrics stats⟩]
          else []) := by
  by_cases hv : accepted c.tcpVariantFlow1
  · have hset : (SetNodeTcpVariant 0 c.tcpVariantFlow1).events.filterMap (fun e => match e with
          | Event.simulatorStop t => some t
          | _ => none) = [] ∧
        (SetNodeTcpVariant 0 c.tcpVariantFlow1).events.filterMap (fun e => match e with
          | Event.printSummary s => some s
          | _ => none) = [] := by
      rcases hv with h | h | h | h <;> rw [h] <;> exact ⟨by decide, by decide⟩
    rcases hs with h1 | h2
    · rw [main_scenario1_accepted c stats h1 hv]
      simp [stopTimes, summaries, hv, List.filterMap_append, List.filterMap_cons,
        stopTimes_topology _ (topology1_all _), summaries_topology _ (topology1_all _),
        hset.1, hset.2, tailEvents]
    · rw [main_scenario2_accepted c stats h2 hv]
      simp [stopTimes, summaries, hv, List.filterMap_append, List.filterMap_cons,
        stopTimes_topology _ (topology2_all _), summaries_topology _ (topology2_all _),
        hset.1, hset.2, tailEvents]
  · rcases hs with h1 | h2
    · rw [main_scenario1_not_accepted c stats h1 hv]
      simp [stopTimes, summaries, hv, List.filterMap_cons,
        stopTimes_topology _ (topology1_all _), summaries_topology _ (topology1_all _)]
    · rw [main_scenario2_not_accepted c stats h2 hv]
      simp [stopTimes, summaries, hv, List.filterMap_cons,
        stopTimes_topology _ (topology2_all _), summaries_topology _ (topology2_all _)]

/-! ## Claims on the driver -/

/-- C5: for every requested run time `r`, the duration passed to
`Simulator::Stop` and printed in the summary is `max r 100` when
`scenario = 2` and exactly `r` when `scenario = 1` (a run whose variant name
is rejected stops before either happens); in particular scenario 2 with
`r = 20` runs for 100 seconds. -/
theorem main_effective_duration (c : Config) (stats : List FlowStats) :
    (c.scenario = 2 →
      stopTimes (main c stats)
          = (if accepted c.tcpVariantFlow1 then [max c.runTime 100] else []) ∧
        (summaries (main c stats)).map (fun s => s.runTime)
          = (if accepted c.tcpVariantFlow1 then [max c.runTime 100] else [])) ∧
    (c.scenario = 1 →
      stopTimes (main c stats)
          = (if accepted c.tcpVariantFlow1 then [c.runTime] else []) ∧
        (summaries (main c stats)).map (fun s => s.runTime)
          = (if accepted c.tcpVariantFlow1 then [c.runTime] else [])) ∧
    (stopTimes (main shortConfig stats) = [100] ∧
      (summaries (main shortConfig stats)).map (fun s => s.runTime) = [100]) := by
  have key : ∀ c : Config, c.scenario = 2 →
      stopTimes (main c stats)
          = (if accepted c.tcpVariantFlow1 then [max c.runTime 100] else []) ∧
        (summaries (main c stats)).map (fun s => s.runTime)
          = (if accepted c.tcpVariantFlow1 then [max c.runTime 100] else []) := by
    intro c h2
    obtain ⟨hst, hsu⟩ := main_stop_and_summary c stats (Or.inr h2)
    have he : effectiveRunTime c.scenario c.runTime = max c.runTime 100 := by
      unfold effectiveRunTime
      rw [h2]
      by_cases hr : c.runTime < 100
      · simp [hr]; omega
      · simp [hr]; omega
    rw [hst, hsu, he]
    by_cases hv : accepted c.tcpVariantFlow1 <;> simp [hv]
  refine ⟨key c, ?_, ?_⟩
  · intro h1
    obtain ⟨hst, hsu⟩ := main_stop_and_summary c stats (Or.inl h1)
    have he : effectiveRunTime c.scenario c.runTime = c.runTime := by
      unfold effectiveRunTime
      rw [h1]
      simp
    rw [hst, hsu, he]
    by_cases hv : accepted c.tcpVariantFlow1 <;> simp [hv]
  · have h := key shortConfig rfl
    have hv : accepted shortConfig.tcpVariantFlow1 := by decide
    rw [if_pos hv] at h
    exact h

/-- C6, refuted as stated: scenario 1 with the legacy name "Reno" installs
NewReno on node 0 and prints one warning, yet the summary prints the variant
"Reno", not "NewReno". -/
theorem main_reno_summary_counterexample :
    (main renoConfig []).status = Status.ok ∧
      installedOn 0 (main renoConfig []) = ["ns3::TcpNewReno"] ∧
      warnings (main renoConfig []) = [warningText "Reno"] ∧
      (summaries (main renoConfig [])).map (fun s => s.variant) = ["Reno"] ∧
      ¬ ∀ s ∈ summaries (main renoConfig []), s.variant = "NewReno" := by
  have hs : (summaries (main renoConfig [])).map (fun s => s.variant) = ["Reno"] := by decide
  refine ⟨by decide, by decide, by decide, hs, ?_⟩
  intro h
  have h2 : ∀ v ∈ (summaries (main renoConfig [])).map (fun s => s.variant), v = "NewReno" := by
    intro v hv
    obtain ⟨s, hs, rfl⟩ := List.mem_map.mp hv
    exact h s hs
  rw [hs] at h2
  exact absurd (h2 "Reno" (List.mem_singleton.mpr rfl)) (by decide)

/-- C6, amended: on scenario 1 with an accepted variant name the run returns
normally and prints one summary whose variant field is the requested name,
unchanged, also for the legacy names "Reno" and "Tahoe"; for those the
algorithm installed on node 0 is NewReno and one warning is printed, for
"NewReno" and "Vegas" the requested algorithm is installed and no warning is
printed. -/
theorem main_summary_variant (c : Config) (stats : List FlowStats) (h1 : c.scenario = 1)
    (hv : accepted c.tcpVariantFlow1) :
    (main c stats).status = Status.ok ∧
      (summaries (main c stats)).map (fun s => s.variant) = [c.tcpVariantFlow1] ∧
      installedOn 0 (main c stats)
        = [if c.tcpVariantFlow1 = "Vegas" then "ns3::TcpVegas" else "ns3::TcpNewReno"] ∧
      warnings (main c stats)
        = (if c.tcpVariantFlow1 = "Reno" ∨ c.tcpVariantFlow1 = "Tahoe" then
            [warningText c.tcpVariantFlow1]
          else []) := by
  refine ⟨?_, ?_, ?_, ?_⟩
  · rw [main_scenario1_accepted c stats h1 hv]
  · rw [(main_stop_and_summary c stats (Or.inl h1)).2, if_pos hv]
    rfl
  · rw [main_scenario1_accepted c stats h1 hv]
    simp only [installedOn, List.filterMap_cons, List.filterMap_append,
      installedOn_topology 0 _ (topology1_all _), tailEvents, List.filterMap_nil, List.nil_append,
      List.append_nil]
    rcases hv with h | h | h | h <;> rw [h] <;> decide
  · rw [main_scenario1_accepted c stats h1 hv]
    simp only [warnings, List.filterMap_cons, List.filterMap_append,
      warnings_topology _ (topology1_all _), tailEvents, List.filterMap_nil, List.nil_append,
      List.append_nil]
    rcases hv with h | h | h | h <;> rw [h] <;> decide

/-- C6 amended, at a concrete input: scenario 1 with "Tahoe" prints the
variant "Tahoe" and installs NewReno on node 0. -/
theorem main_summary_variant_witness :
    (main ⟨1, "Tahoe", "RED", "5Mbps", 30⟩ sampleStats).status = Status.ok ∧
      (summaries (main ⟨1, "Tahoe", "RED", "5Mbps", 30⟩ sampleStats)).map (fun s => s.variant)
        = ["Tahoe"] ∧
      installedOn 0 (main ⟨1, "Tahoe", "RED", "5Mbps", 30⟩ sampleStats) = ["ns3::TcpNewReno"] ∧
      warnings (main ⟨1, "Tahoe", "RED", "5Mbps", 30⟩ sampleStats) = [warningText "Tahoe"] :=
  main_summary_variant ⟨1, "Tahoe", "RED", "5Mbps", 30⟩ sampleStats rfl (by decide)

/-- C7, evaluated at the failing input: with scenario selector 3 no fatal
configuration error is raised.  No node is created, so `flowmon.InstallAll ()`
hands back a null monitor; `Simulator::Stop` and `Simulator::Run` are still
called, and the run then ends in the null dereference at line 47 instead of
an `NS_FATAL_ERROR`, without a summary. -/
theorem main_scenario3_null_monitor (stats : List FlowStats) :
    (main scenario3Config stats).events =
        [Event.setDefault "ns3::TcpSocket::SegmentSize" 1000, Event.flowMonitorInstallAll,
          Event.simulatorStop 50, Event.simulatorRun] ∧
      (main scenario3Config stats).status = Status.nullDereference ∧
      (main scenario3Config stats).status.isFatal = false ∧
      Event.simulatorRun ∈ (main scenario3Config stats).events ∧
      summaries (main scenario3Config stats) = [] := by
  have h : main scenario3Config stats =
      ⟨[Event.setDefault "ns3::TcpSocket::SegmentSize" 1000, Event.flowMonitorInstallAll,
          Event.simulatorStop 50, Event.simulatorRun], Status.nullDereference⟩ :=
    main_other scenario3Config stats (by decide) (by decide)
  rw [h]
  exact ⟨rfl, rfl, rfl, by decide, by decide⟩

/-- C8, refuted as stated: on scenario 1 the unsupported name "Cubic" aborts
the run only after nodes, links, addresses and routing tables were created. -/
theorem main_cubic_counterexample :
    (main cubicConfig []).status = Status.fatal (unsupportedText "Cubic") ∧
      Event.createNodes 5 ∈ (main cubicConfig []).events ∧
      Event.p2pInstall 0 1 ∈ (main cubicConfig []).events ∧
      Event.ipAssign "10.0.1.0" 0 ∈ (main cubicConfig []).events ∧
      Event.populateRoutingTables ∈ (main cubicConfig []).events ∧
      ¬ ∀ e ∈ (main cubicConfig []).events, e.isTopology = false := by
  refine ⟨by decide, by decide, by decide, by decide, by decide, ?_⟩
  intro h
  exact absurd (h (Event.createNodes 5) (by decide)) (by decide)

/-- C8, amended: when the requested variant is none of "NewReno", "Vegas",
"Reno", "Tahoe" and the scenario is 1 or 2, the run ends in the fatal
unsupported-variant error raised by `SetNodeTcpVariant`.  By then the whole
topology of the scenario has been created, and nothing else: scenario 1 has
its 5 nodes, 4 links, the RED queue disc on each link when the queue type is
"RED", the addresses 10.0.1.0 to 10.0.4.0 and the routing tables; scenario 2
has its 9 nodes, 8 links, the RED queue disc on each link when asked for, the
addresses 10.1.1.0 to 10.1.8.0 and the routing tables.  No algorithm is
installed, no traffic is provisioned, no flow monitor is installed, the
simulator is not run and no summary is printed. -/
theorem main_unsupported_variant (c : Config) (stats : List FlowStats)
    (hv : ¬ accepted c.tcpVariantFlow1) :
    (c.scenario = 1 →
      (main c stats).status = Status.fatal (unsupportedText c.tcpVariantFlow1) ∧
        (main c stats).events =
          [Event.setDefault "ns3::TcpSocket::SegmentSize" 1000,
            Event.createNodes 5, Event.installInternet 5,
            Event.p2pInstall 0 1, Event.p2pInstall 1 2, Event.p2pInstall 2 3,
            Event.p2pInstall 3 4]
          ++ (if c.queueType = "RED" then
                [Event.setRootQueueDisc "ns3::RedQueueDisc", Event.tchInstall 0,
                  Event.tchInstall 1, Event.tchInstall 2, Event.tchInstall 3]
              else [])
          ++ [Event.ipAssign "10.0.1.0" 0, Event.ipAssign "10.0.2.0" 1,
              Event.ipAssign "10.0.3.0" 2, Event.ipAssign "10.0.4.0" 3,
              Event.populateRoutingTables]) ∧
    (c.scenario = 2 →
      (main c stats).status = Status.fatal (unsupportedText c.tcpVariantFlow1) ∧
        (main c stats).events =
          [Event.setDefault "ns3::TcpSocket::SegmentSize" 1000,
            Event.createNodes 9, Event.installInternet 9,
            Event.p2pInstall 0 1, Event.p2pInstall 1 2, Event.p2pInstall 2 3,
            Event.p2pInstall 3 4, Event.p2pInstall 4 5, Event.p2pInstall 5 6,
            Event.p2pInstall 6 7, Event.p2pInstall 7 8]
          ++ (if c.queueType = "RED" then
                [Event.setRootQueueDisc "ns3::RedQueueDisc", Event.tchInstall 0,
                  Event.tchInstall 1, Event.tchInstall 2, Event.tchInstall 3,
                  Event.tchInstall 4, Event.tchInstall 5, Event.tchInstall 6,
                  Event.tchInstall 7]
              else [])
          ++ [Event.ipAssign "10.1.1.0" 0, Event.ipAssign "10.1.2.0" 1,
              Event.ipAssign "10.1.3.0" 2, Event.ipAssign "10.1.4.0" 3,
              Event.ipAssign "10.1.5.0" 4, Event.ipAssign "10.1.6.0" 5,
              Event.ipAssign "10.1.7.0" 6, Event.ipAssign "10.1.8.0" 7,
              Event.populateRoutingTables]) ∧
    (c.scenario = 1 ∨ c.scenario = 2 →
      ∀ e ∈ (main c stats).events,
        e.isInstall = false ∧ e.isTraffic = false ∧ e.isSummary = false ∧
          e ≠ Event.flowMonitorInstallAll ∧ e ≠ Event.simulatorRun) := by
  have hall : ∀ (l : List Event), (∀ e ∈ l, e.isTopology = true) →
      ∀ e ∈ Event.setDefault "ns3::TcpSocket::SegmentSize" tcpSegSize :: l,
        e.isInstall = false ∧ e.isTraffic = false ∧ e.isSummary = false ∧
          e ≠ Event.flowMonitorInstallAll ∧ e ≠ Event.simulatorRun := by
    intro l hl e he
    rcases List.mem_cons.mp he with h | h
    · subst h
      exact ⟨rfl, rfl, rfl, by decide, by decide⟩
    · have ht := hl e h
      cases e <;> simp_all [Event.isTopology, Event.isInstall, Event.isTraffic, Event.isSummary]
  refine ⟨?_, ?_, ?_⟩
  · intro h1
    rw [main_scenario1_not_accepted c stats h1 hv]
    refine ⟨rfl, ?_⟩
    by_cases hq : c.queueType = "RED"
    · have hb : (c.queueType == "RED") = true := by simp [hq]
      simp only [hb, hq, if_true]
      decide
    · have hb : (c.queueType == "RED") = false := by simp [hq]
      simp only [hb, hq, if_false]
      decide
  · intro h2
    rw [main_scenario2_not_accepted c stats h2 hv]
    refine ⟨rfl, ?_⟩
    by_cases hq : c.queueType = "RED"
    · have hb : (c.queueType == "RED") = true := by simp [hq]
      simp only [hb, hq, if_true]
      decide
    · have hb : (c.queueType == "RED") = false := by simp [hq]
      simp only [hb, hq, if_false]
      decide
  · rintro (h1 | h2)
    · rw [main_scenario1_not_accepted c stats h1 hv]
      exact hall _ (topology1_all _)
    · rw [main_scenario2_not_accepted c stats h2 hv]
      exact hall _ (topology2_all _)

/-- C8 amended, at a concrete input: scenario 2 with "Cubic" and the RED
queue. -/
theorem main_unsupported_variant_witness :
    ¬ accepted "Cubic" ∧
      (main ⟨2, "Cubic", "RED", "1Mbps", 20⟩ []).status
        = Status.fatal (unsupportedText "Cubic") ∧
      (main ⟨2, "Cubic", "RED", "1Mbps", 20⟩ []).events =
        [Event.setDefault "ns3::TcpSocket::SegmentSize" 1000,
          Event.createNodes 9, Event.installInternet 9,
          Event.p2pInstall 0 1, Event.p2pInstall 1 2, Event.p2pInstall 2 3,
          Event.p2pInstall 3 4, Event.p2pInstall 4 5, Event.p2pInstall 5 6,
          Event.p2pInstall 6 7, Event.p2pInstall 7 8]
        ++ (if "RED" = "RED" then
              [Event.setRootQueueDisc "ns3::RedQueueDisc", Event.tchInstall 0,
                Event.tchInstall 1, Event.tchInstall 2, Event.tchInstall 3,
                Event.tchInstall 4, Event.tchInstall 5, Event.tchInstall 6,
                Event.tchInstall 7]
            else [])
        ++ [Event.ipAssign "10.1.1.0" 0, Event.ipAssign "10.1.2.0" 1,
            Event.ipAssign "10.1.3.0" 2, Event.ipAssign "10.1.4.0" 3,
            Event.ipAssign "10.1.5.0" 4, Event.ipAssign "10.1.6.0" 5,
            Event.ipAssign "10.1.7.0" 6, Event.ipAssign "10.1.8.0" 7,
            Event.populateRoutingTables] :=
  ⟨by decide, (main_unsupported_variant ⟨2, "Cubic", "RED", "1Mbps", 20⟩ [] (by decide)).2.1 rfl⟩

end TcpVariants
